import Mathlib

/-!
Verification of the bot_trade repository against its specification.

The Python sources are shallowly embedded in Lean 4:
* Python floats are modelled as exact rationals (ℚ); the properties checked
  here are the real-number properties of the algorithms.
* Python exceptions are modelled with Except; mutation is modelled by
  returning the updated value.
* Python dicts of heterogeneous JSON-like payloads are modelled by an
  inductive value type and association lists.

Each embedded definition keeps the name and the control flow of its source
function (trade_ai/domain/services/risk_engine_v1.py,
trade_ai/domain/services/mfe_mae_calculator.py,
trade_ai/domain/entities/snapshot.py and trade_aggregate.py,
trade_ai/application/usecases/observer_usecase.py,
trade_ai/infrastructure/storage/snapshot_repo_fs_json.py,
trade_ai/domain/services/model_scorer_v1.py,
trade_ai/domain/policies/hybrid_policy_v1.py,
trade_ai/infrastructure/market/universe_selector_v3.py,
trade_ai/infrastructure/market/snapshot_builder_v1.py).
-/

/-! ## Risk engine (trade_ai/domain/services/risk_engine_v1.py) -/

/-- trade_ai/domain/entities/trade_decision.py, dataclass TradeDecision.
Prices are rationals; confidence is optional. -/
structure TradeDecision where
  action_type : ℤ
  direction : String
  entry_price : ℚ
  sl_price : ℚ
  tp_price : ℚ
  rr : ℚ
  risk_unit : ℚ
  confidence : Option ℚ
  decision_time_utc : ℤ
deriving DecidableEq, Repr

/-- TradeDecision.__post_init__ validation, with math.isclose modelled as
exact equality of rationals. -/
def TradeDecision.valid (d : TradeDecision) : Prop :=
  (d.action_type = 0 ∨ d.action_type = 1) ∧
  d.direction.toUpper = (if d.action_type = 1 then "LONG" else "SHORT") ∧
  0 < d.risk_unit ∧
  |d.entry_price - d.sl_price| = d.risk_unit ∧
  (∀ c ∈ d.confidence, 0 ≤ c ∧ c ≤ 1) ∧
  0 ≤ d.rr

instance (d : TradeDecision) : Decidable d.valid := by
  unfold TradeDecision.valid
  infer_instance

/-- risk_engine_v1.py, dataclass AccountState. -/
structure AccountState where
  equity_usdt : ℚ
  free_usdt : ℚ
deriving DecidableEq, Repr

/-- risk_engine_v1.py, dataclass MarketConstraints. -/
structure MarketConstraints where
  min_notional_usdt : ℚ := 5
  min_qty : Option ℚ := none
  qty_step : Option ℚ := none
deriving DecidableEq, Repr

/-- risk_engine_v1.py, dataclass RiskConfig.  Percentages keep the source
convention (risk_per_trade_pct = 0.25 means 0.25 %). -/
structure RiskConfig where
  risk_per_trade_pct : ℚ := 1/4
  risk_per_trade_usdt : Option ℚ := none
  default_leverage : ℤ := 3
  max_leverage : ℤ := 10
  margin_utilization : ℚ := 3/10
  max_notional_usdt : Option ℚ := none
  max_exposure_pct_per_symbol : Option ℚ := none
  min_notional_policy : String := "skip"
  max_risk_multiplier_on_override : ℚ := 2
  max_risk_override_usdt : Option ℚ := none
  min_confidence : ℚ := 11/20
deriving DecidableEq, Repr

/-- risk_engine_v1.py, dataclass RiskPlan. -/
structure RiskPlan where
  ok : Bool
  reason : String
  qty : Option ℚ := none
  notional_usdt : Option ℚ := none
  leverage : Option ℤ := none
  risk_usdt : Option ℚ := none
  risk_pct : Option ℚ := none
deriving DecidableEq, Repr

/-- risk_engine_v1.py, _floor_to_step. -/
def floorToStep (x : ℚ) (step : Option ℚ) : ℚ :=
  match step with
  | none => x
  | some s => if s ≤ 0 then x else ⌊x / s⌋ * s

/-- risk_engine_v1.py, _ceil_to_step. -/
def ceilToStep (x : ℚ) (step : Option ℚ) : ℚ :=
  match step with
  | none => x
  | some s => if s ≤ 0 then x else ⌈x / s⌉ * s

/-- risk_engine_v1.py lines 134-137 and the identical re-application after
caps: bump qty to min_qty and re-ceil to the step. -/
def applyMinQty (cons : MarketConstraints) (q : ℚ) : ℚ :=
  match cons.min_qty with
  | none => q
  | some mq => ceilToStep (max mq q) cons.qty_step

/-- risk_engine_v1.py lines 117-120: risk budget from config. -/
def riskBudgetOf (cfg : RiskConfig) (equity : ℚ) : ℚ :=
  match cfg.risk_per_trade_usdt with
  | some r => if 0 < r then r else equity * (cfg.risk_per_trade_pct / 100)
  | none => equity * (cfg.risk_per_trade_pct / 100)

/-- risk_engine_v1.py line 126: stop distance. -/
def stopDistOf (dec : TradeDecision) : ℚ :=
  |dec.entry_price - dec.sl_price|

/-- risk_engine_v1.py lines 131-137: initial qty from the risk budget,
floored to step, bumped to min_qty. -/
def qty1Of (cfg : RiskConfig) (acct : AccountState) (cons : MarketConstraints)
    (dec : TradeDecision) : ℚ :=
  applyMinQty cons
    (floorToStep (riskBudgetOf cfg acct.equity_usdt / stopDistOf dec) cons.qty_step)

/-- risk_engine_v1.py lines 143-145: effective min notional (default 5 when
the market reports none or a non-positive value). -/
def minNotionalEff (cons : MarketConstraints) : ℚ :=
  if 0 < cons.min_notional_usdt then cons.min_notional_usdt else 5

/-- risk_engine_v1.py lines 148-154: optional max-notional cap. -/
def applyMaxNotionalCap (cfg : RiskConfig) (cons : MarketConstraints)
    (entry q : ℚ) : ℚ :=
  match cfg.max_notional_usdt with
  | some mn =>
    if 0 < mn then
      applyMinQty cons (min q (floorToStep (mn / entry) cons.qty_step))
    else q
  | none => q

/-- qty after the optional max-notional cap (risk_engine_v1.py line 156
computes notional from it). -/
def qty2Of (cfg : RiskConfig) (acct : AccountState) (cons : MarketConstraints)
    (dec : TradeDecision) : ℚ :=
  applyMaxNotionalCap cfg cons dec.entry_price (qty1Of cfg acct cons dec)

/-- risk_engine_v1.py lines 159-160: starting leverage clamped
to [1, max_leverage] from above by max and below by 1. -/
def lev0Of (cfg : RiskConfig) : ℤ :=
  max 1 (min cfg.max_leverage cfg.default_leverage)

/-- risk_engine_v1.py lines 162-167: margin limit from margin utilization,
optionally capped by the per-symbol exposure limit. -/
def marginLimitOf (cfg : RiskConfig) (acct : AccountState) : ℚ :=
  let base := max 0 (cfg.margin_utilization * acct.free_usdt)
  match cfg.max_exposure_pct_per_symbol with
  | some p =>
    if 0 < p then min base (acct.equity_usdt * (p / 100)) else base
  | none => base

/-- risk_engine_v1.py lines 171-176: raise leverage up to max_leverage when
the initial margin exceeds the limit. -/
def raisedLev (cfg : RiskConfig) (notional marginLimit : ℚ) (lev : ℤ) : ℤ :=
  if marginLimit < notional / (lev : ℚ) then
    max lev (min cfg.max_leverage (max 1 ⌈notional / marginLimit⌉))
  else lev

/-- Leverage after the raise attempt. -/
def lev1Of (cfg : RiskConfig) (acct : AccountState) (cons : MarketConstraints)
    (dec : TradeDecision) : ℤ :=
  raisedLev cfg (qty2Of cfg acct cons dec * dec.entry_price)
    (marginLimitOf cfg acct) (lev0Of cfg)

/-- risk_engine_v1.py lines 180-184: scale qty down to fit the margin
limit at the chosen leverage. -/
def scaleDownQty (cons : MarketConstraints) (marginLimit : ℚ) (lev : ℤ)
    (entry q : ℚ) : ℚ :=
  applyMinQty cons (min q (floorToStep (marginLimit * (lev : ℚ) / entry) cons.qty_step))

/-- qty after the margin scale-down step (risk_engine_v1.py lines 178-186). -/
def qty3Of (cfg : RiskConfig) (acct : AccountState) (cons : MarketConstraints)
    (dec : TradeDecision) : ℚ :=
  if marginLimitOf cfg acct
      < qty2Of cfg acct cons dec * dec.entry_price / ((lev1Of cfg acct cons dec : ℤ) : ℚ) then
    scaleDownQty cons (marginLimitOf cfg acct) (lev1Of cfg acct cons dec)
      dec.entry_price (qty2Of cfg acct cons dec)
  else qty2Of cfg acct cons dec

/-- A failed RiskPlan (ok=False with a reason, all sizing fields None). -/
def mkFail (reason : String) : RiskPlan :=
  { ok := false, reason := reason }

/-- risk_engine_v1.py lines 226-238: the successful RiskPlan. -/
def mkOkPlan (qty notional : ℚ) (lev : ℤ) (stopDist equity : ℚ) : RiskPlan :=
  { ok := true
    reason := "ok"
    qty := some qty
    notional_usdt := some notional
    leverage := some lev
    risk_usdt := some (qty * stopDist)
    risk_pct := if 0 < equity then some (qty * stopDist / equity * 100) else none }

/-- risk_engine_v1.py line 196: the min-notional policy string check
(`(policy or "skip").lower() != "override_with_cap"`). -/
def policyIsOverride (policy : String) : Bool :=
  (if policy = "" then "skip" else policy).toLower = "override_with_cap"

/-- risk_engine_v1.py lines 210-211: optional absolute override risk cap. -/
def overrideCapExceeded (cap : Option ℚ) (risk2 : ℚ) : Bool :=
  match cap with
  | some m => decide (m < risk2)
  | none => false

/-- risk_engine_v1.py line 200: qty bumped up to match min notional
(ceil to step, then min_qty re-application). -/
def overrideQtyOf (cons : MarketConstraints) (entry minNotional : ℚ) : ℚ :=
  applyMinQty cons (ceilToStep (minNotional / entry) cons.qty_step)

/-- risk_engine_v1.py lines 216-217: leverage bump inside the override
branch. -/
def overrideLev2Of (cfg : RiskConfig) (notional2 marginLimit : ℚ) (lev : ℤ) : ℤ :=
  min cfg.max_leverage (max lev ⌈notional2 / marginLimit⌉)

/-- risk_engine_v1.py lines 199-224: the min-notional override branch. -/
def overridePlan (cfg : RiskConfig) (cons : MarketConstraints)
    (entry stopDist riskBudget minNotional marginLimit equity : ℚ) (lev : ℤ) :
    RiskPlan :=
  if riskBudget * cfg.max_risk_multiplier_on_override
      < overrideQtyOf cons entry minNotional * stopDist then
    mkFail "min_notional_override_risk_too_high"
  else if overrideCapExceeded cfg.max_risk_override_usdt
      (overrideQtyOf cons entry minNotional * stopDist) then
    mkFail "min_notional_override_cap_exceeded"
  else if marginLimit < overrideQtyOf cons entry minNotional * entry / (lev : ℚ) then
    if marginLimit < overrideQtyOf cons entry minNotional * entry
        / ((overrideLev2Of cfg (overrideQtyOf cons entry minNotional * entry)
            marginLimit lev : ℤ) : ℚ) then
      mkFail "min_notional_override_margin_too_high"
    else
      mkOkPlan (overrideQtyOf cons entry minNotional)
        (overrideQtyOf cons entry minNotional * entry)
        (overrideLev2Of cfg (overrideQtyOf cons entry minNotional * entry) marginLimit lev)
        stopDist equity
  else
    mkOkPlan (overrideQtyOf cons entry minNotional)
      (overrideQtyOf cons entry minNotional * entry) lev stopDist equity

/-- RiskEngineV1.build_plan (risk_engine_v1.py lines 100-238), transcribed
with the same guard order.  Python's `not (x > 0)` guards are written as
`x ≤ 0`. -/
def buildPlan (cfg : RiskConfig) (acct : AccountState) (cons : MarketConstraints)
    (dec : TradeDecision) : RiskPlan :=
  if dec.confidence.getD 1 < cfg.min_confidence then
    mkFail "confidence_below_min"
  else if ¬ (0 < acct.equity_usdt ∧ 0 < acct.free_usdt) then
    mkFail "account_balance_invalid"
  else if riskBudgetOf cfg acct.equity_usdt ≤ 0 then
    mkFail "risk_budget_invalid"
  else if stopDistOf dec ≤ 0 then
    mkFail "stop_distance_invalid"
  else if qty1Of cfg acct cons dec ≤ 0 then
    mkFail "qty_invalid"
  else if marginLimitOf cfg acct ≤ 0 then
    mkFail "margin_limit_invalid"
  else if marginLimitOf cfg acct
      < qty3Of cfg acct cons dec * dec.entry_price / (lev1Of cfg acct cons dec : ℚ) then
    mkFail "margin_too_high"
  else if qty3Of cfg acct cons dec ≤ 0 then
    mkFail "qty_too_small_after_margin"
  else if qty3Of cfg acct cons dec * dec.entry_price < minNotionalEff cons then
    if ¬ policyIsOverride cfg.min_notional_policy then
      mkFail "notional_below_min"
    else
      overridePlan cfg cons dec.entry_price (stopDistOf dec)
        (riskBudgetOf cfg acct.equity_usdt) (minNotionalEff cons)
        (marginLimitOf cfg acct) acct.equity_usdt (lev1Of cfg acct cons dec)
  else
    mkOkPlan (qty3Of cfg acct cons dec) (qty3Of cfg acct cons dec * dec.entry_price)
      (lev1Of cfg acct cons dec) (stopDistOf dec) acct.equity_usdt

/-! ### Step-rounding lemmas -/

/-- q is an integer multiple of the step s. -/
def IsStepMul (s q : ℚ) : Prop := ∃ k : ℤ, q = k * s

theorem floorToStep_le (x : ℚ) (step : Option ℚ) : floorToStep x step ≤ x := by
  unfold floorToStep
  cases step with
  | none => exact le_refl x
  | some s =>
    by_cases hs : s ≤ 0
    · simp [hs]
    · push_neg at hs
      simp only [not_le.2 hs, if_false]
      calc (⌊x / s⌋ : ℚ) * s ≤ x / s * s :=
            mul_le_mul_of_nonneg_right (Int.floor_le _) hs.le
        _ = x := div_mul_cancel₀ x (ne_of_gt hs)

theorem le_ceilToStep (x : ℚ) (step : Option ℚ) : x ≤ ceilToStep x step := by
  unfold ceilToStep
  cases step with
  | none => exact le_refl x
  | some s =>
    by_cases hs : s ≤ 0
    · simp [hs]
    · push_neg at hs
      simp only [not_le.2 hs, if_false]
      calc x = x / s * s := (div_mul_cancel₀ x (ne_of_gt hs)).symm
        _ ≤ (⌈x / s⌉ : ℚ) * s := mul_le_mul_of_nonneg_right (Int.le_ceil _) hs.le

theorem isStepMul_floorToStep (x s : ℚ) (hs : 0 < s) :
    IsStepMul s (floorToStep x (some s)) := by
  refine ⟨⌊x / s⌋, ?_⟩
  simp [floorToStep, not_le.2 hs]

theorem isStepMul_ceilToStep (x s : ℚ) (hs : 0 < s) :
    IsStepMul s (ceilToStep x (some s)) := by
  refine ⟨⌈x / s⌉, ?_⟩
  simp [ceilToStep, not_le.2 hs]

theorem IsStepMul.min {s a b : ℚ} (ha : IsStepMul s a) (hb : IsStepMul s b) :
    IsStepMul s (min a b) := by
  rcases le_total a b with h | h
  · rwa [min_eq_left h]
  · rwa [min_eq_right h]

theorem isStepMul_applyMinQty {s : ℚ} (cons : MarketConstraints) (q : ℚ)
    (hstep : cons.qty_step = some s) (hs : 0 < s) (hq : IsStepMul s q) :
    IsStepMul s (applyMinQty cons q) := by
  unfold applyMinQty
  cases cons.min_qty with
  | none => exact hq
  | some mq => rw [hstep]; exact isStepMul_ceilToStep _ _ hs

theorem le_applyMinQty (cons : MarketConstraints) (q : ℚ) :
    q ≤ applyMinQty cons q := by
  unfold applyMinQty
  cases cons.min_qty with
  | none => exact le_refl q
  | some mq => exact le_trans (le_max_right mq q) (le_ceilToStep _ _)

theorem isStepMul_qty1 {s : ℚ} (cfg : RiskConfig) (acct : AccountState)
    (cons : MarketConstraints) (dec : TradeDecision)
    (hstep : cons.qty_step = some s) (hs : 0 < s) :
    IsStepMul s (qty1Of cfg acct cons dec) := by
  unfold qty1Of
  refine isStepMul_applyMinQty cons _ hstep hs ?_
  rw [hstep]
  exact isStepMul_floorToStep _ _ hs

theorem isStepMul_qty2 {s : ℚ} (cfg : RiskConfig) (acct : AccountState)
    (cons : MarketConstraints) (dec : TradeDecision)
    (hstep : cons.qty_step = some s) (hs : 0 < s) :
    IsStepMul s (qty2Of cfg acct cons dec) := by
  unfold qty2Of applyMaxNotionalCap
  cases cfg.max_notional_usdt with
  | none => exact isStepMul_qty1 cfg acct cons dec hstep hs
  | some mn =>
    by_cases hmn : 0 < mn
    · simp only [hmn, if_true]
      refine isStepMul_applyMinQty cons _ hstep hs ?_
      refine IsStepMul.min (isStepMul_qty1 cfg acct cons dec hstep hs) ?_
      rw [hstep]
      exact isStepMul_floorToStep _ _ hs
    · simp only [hmn, if_false]
      exact isStepMul_qty1 cfg acct cons dec hstep hs

theorem isStepMul_qty3 {s : ℚ} (cfg : RiskConfig) (acct : AccountState)
    (cons : MarketConstraints) (dec : TradeDecision)
    (hstep : cons.qty_step = some s) (hs : 0 < s) :
    IsStepMul s (qty3Of cfg acct cons dec) := by
  unfold qty3Of
  split
  · unfold scaleDownQty
    refine isStepMul_applyMinQty cons _ hstep hs ?_
    refine IsStepMul.min (isStepMul_qty2 cfg acct cons dec hstep hs) ?_
    rw [hstep]
    exact isStepMul_floorToStep _ _ hs
  · exact isStepMul_qty2 cfg acct cons dec hstep hs

theorem isStepMul_overrideQty {s : ℚ} (cons : MarketConstraints)
    (entry minNotional : ℚ) (hstep : cons.qty_step = some s) (hs : 0 < s) :
    IsStepMul s (overrideQtyOf cons entry minNotional) := by
  unfold overrideQtyOf
  refine isStepMul_applyMinQty cons _ hstep hs ?_
  rw [hstep]
  exact isStepMul_ceilToStep _ _ hs

theorem overrideQty_ge (cons : MarketConstraints) (entry minNotional : ℚ) :
    minNotional / entry ≤ overrideQtyOf cons entry minNotional :=
  le_trans (le_ceilToStep _ _) (le_applyMinQty _ _)

/-! ### Leverage and margin-limit lemmas -/

theorem lev0_bounds (cfg : RiskConfig) (hlev : 1 ≤ cfg.max_leverage) :
    1 ≤ lev0Of cfg ∧ lev0Of cfg ≤ cfg.max_leverage :=
  ⟨le_max_left 1 _, max_le hlev (min_le_left _ _)⟩

theorem raisedLev_bounds (cfg : RiskConfig) (n m : ℚ) {lev : ℤ}
    (h1 : 1 ≤ lev) (h2 : lev ≤ cfg.max_leverage) :
    1 ≤ raisedLev cfg n m lev ∧ raisedLev cfg n m lev ≤ cfg.max_leverage := by
  unfold raisedLev
  split
  · exact ⟨le_trans h1 (le_max_left _ _), max_le h2 (min_le_left _ _)⟩
  · exact ⟨h1, h2⟩

theorem lev1_bounds (cfg : RiskConfig) (acct : AccountState)
    (cons : MarketConstraints) (dec : TradeDecision) (hlev : 1 ≤ cfg.max_leverage) :
    1 ≤ lev1Of cfg acct cons dec ∧ lev1Of cfg acct cons dec ≤ cfg.max_leverage := by
  unfold lev1Of
  exact raisedLev_bounds cfg _ _ (lev0_bounds cfg hlev).1 (lev0_bounds cfg hlev).2

theorem overrideLev2_bounds (cfg : RiskConfig) (n m : ℚ) {lev : ℤ}
    (hlev : 1 ≤ cfg.max_leverage) (h1 : 1 ≤ lev) :
    1 ≤ overrideLev2Of cfg n m lev ∧ overrideLev2Of cfg n m lev ≤ cfg.max_leverage :=
  ⟨le_min hlev (le_trans h1 (le_max_left _ _)), min_le_left _ _⟩

theorem marginLimit_le_base (cfg : RiskConfig) (acct : AccountState) :
    marginLimitOf cfg acct
      ≤ max 0 (cfg.margin_utilization * acct.free_usdt) := by
  unfold marginLimitOf
  cases cfg.max_exposure_pct_per_symbol with
  | none => exact le_refl _
  | some p =>
    by_cases hp : 0 < p
    · simp only [hp, if_true]
      exact min_le_left _ _
    · simp only [hp, if_false]
      exact le_refl _

theorem marginLimit_le_util (cfg : RiskConfig) (acct : AccountState)
    (h : 0 < marginLimitOf cfg acct) :
    marginLimitOf cfg acct ≤ cfg.margin_utilization * acct.free_usdt := by
  have hb := marginLimit_le_base cfg acct
  have hpos : 0 < max 0 (cfg.margin_utilization * acct.free_usdt) :=
    lt_of_lt_of_le h hb
  have hfree : 0 ≤ cfg.margin_utilization * acct.free_usdt := by
    by_contra hneg
    push_neg at hneg
    rw [max_eq_left hneg.le] at hpos
    exact lt_irrefl 0 hpos
  rwa [max_eq_right hfree] at hb

theorem minNotionalEff_pos (cons : MarketConstraints) : 0 < minNotionalEff cons := by
  unfold minNotionalEff
  split
  · assumption
  · norm_num


/-! ### Claim C1: invariants of an accepted RiskPlan -/

set_option maxHeartbeats 1600000 in
/-- C1 (amended).  For every AccountState, MarketConstraints with a positive
qty_step, TradeDecision with a positive entry price and RiskConfig with
max_leverage at least 1, if RiskEngineV1.build_plan returns a plan with
ok=true then: qty > 0, qty is an integer multiple of qty_step,
notional_usdt = qty * entry_price, notional_usdt is at least the effective
market min-notional (default 5), notional_usdt / leverage is at most
margin_utilization * free, and 1 <= leverage <= max_leverage.
The two extra hypotheses (positive entry price, max_leverage >= 1) are
forced by the counterexample buildPlan_claim_counterexample: without them
the source can accept a plan with a negative qty (negative entry price
under the override_with_cap policy) or with leverage above max_leverage
(max_leverage = 0 is silently clamped to 1). -/
theorem buildPlan_ok_invariants
    (cfg : RiskConfig) (acct : AccountState) (cons : MarketConstraints)
    (dec : TradeDecision) (s : ℚ) (P : RiskPlan)
    (hstep : cons.qty_step = some s) (hs : 0 < s)
    (hentry : 0 < dec.entry_price) (hlev : 1 ≤ cfg.max_leverage)
    (hP : buildPlan cfg acct cons dec = P) (hok : P.ok = true) :
    ∃ q L, P.qty = some q ∧ P.leverage = some L ∧
      P.notional_usdt = some (q * dec.entry_price) ∧
      0 < q ∧ (∃ k : ℤ, q = k * s) ∧
      minNotionalEff cons ≤ q * dec.entry_price ∧
      q * dec.entry_price / (L : ℚ) ≤ cfg.margin_utilization * acct.free_usdt ∧
      1 ≤ L ∧ L ≤ cfg.max_leverage := by
  unfold buildPlan at hP
  split at hP
  · rw [← hP] at hok; exact Bool.noConfusion hok
  rename_i hconf
  split at hP
  · rw [← hP] at hok; exact Bool.noConfusion hok
  rename_i hbal
  split at hP
  · rw [← hP] at hok; exact Bool.noConfusion hok
  rename_i hbudget
  split at hP
  · rw [← hP] at hok; exact Bool.noConfusion hok
  rename_i hstop
  split at hP
  · rw [← hP] at hok; exact Bool.noConfusion hok
  rename_i hq1
  split at hP
  · rw [← hP] at hok; exact Bool.noConfusion hok
  rename_i hlim
  split at hP
  · rw [← hP] at hok; exact Bool.noConfusion hok
  rename_i hmargin
  split at hP
  · rw [← hP] at hok; exact Bool.noConfusion hok
  rename_i hq3
  push_neg at hlim hmargin hq3
  split at hP
  · -- notional below min: policy split
    rename_i hbelow
    split at hP
    · rw [← hP] at hok; exact Bool.noConfusion hok
    unfold overridePlan at hP
    split at hP
    · rw [← hP] at hok; exact Bool.noConfusion hok
    rename_i hrisk2
    split at hP
    · rw [← hP] at hok; exact Bool.noConfusion hok
    rename_i hcap2
    have hqpos : 0 < overrideQtyOf cons dec.entry_price (minNotionalEff cons) :=
      lt_of_lt_of_le (div_pos (minNotionalEff_pos cons) hentry)
        (overrideQty_ge cons dec.entry_price (minNotionalEff cons))
    have hnot2 : minNotionalEff cons
        ≤ overrideQtyOf cons dec.entry_price (minNotionalEff cons) * dec.entry_price :=
      (div_le_iff₀ hentry).mp (overrideQty_ge cons dec.entry_price (minNotionalEff cons))
    split at hP
    · rename_i hOm
      split at hP
      · rw [← hP] at hok; exact Bool.noConfusion hok
      rename_i hOm2
      push_neg at hOm2
      refine ⟨overrideQtyOf cons dec.entry_price (minNotionalEff cons),
        overrideLev2Of cfg
          (overrideQtyOf cons dec.entry_price (minNotionalEff cons) * dec.entry_price)
          (marginLimitOf cfg acct) (lev1Of cfg acct cons dec),
        ?_, ?_, ?_, ?_, ?_, ?_, ?_, ?_, ?_⟩
      · rw [← hP]; rfl
      · rw [← hP]; rfl
      · rw [← hP]; rfl
      · exact hqpos
      · exact isStepMul_overrideQty cons _ _ hstep hs
      · exact hnot2
      · exact le_trans hOm2 (marginLimit_le_util cfg acct hlim)
      · exact (overrideLev2_bounds cfg _ _ hlev (lev1_bounds cfg acct cons dec hlev).1).1
      · exact (overrideLev2_bounds cfg _ _ hlev (lev1_bounds cfg acct cons dec hlev).1).2
    · rename_i hOm
      push_neg at hOm
      refine ⟨overrideQtyOf cons dec.entry_price (minNotionalEff cons),
        lev1Of cfg acct cons dec, ?_, ?_, ?_, ?_, ?_, ?_, ?_, ?_, ?_⟩
      · rw [← hP]; rfl
      · rw [← hP]; rfl
      · rw [← hP]; rfl
      · exact hqpos
      · exact isStepMul_overrideQty cons _ _ hstep hs
      · exact hnot2
      · exact le_trans hOm (marginLimit_le_util cfg acct hlim)
      · exact (lev1_bounds cfg acct cons dec hlev).1
      · exact (lev1_bounds cfg acct cons dec hlev).2
  · -- main ok branch
    rename_i hnotional
    push_neg at hnotional
    refine ⟨qty3Of cfg acct cons dec, lev1Of cfg acct cons dec, ?_, ?_, ?_, ?_, ?_, ?_, ?_, ?_, ?_⟩
    · rw [← hP]; rfl
    · rw [← hP]; rfl
    · rw [← hP]; rfl
    · exact hq3
    · exact isStepMul_qty3 cfg acct cons dec hstep hs
    · exact hnotional
    · exact le_trans hmargin (marginLimit_le_util cfg acct hlim)
    · exact (lev1_bounds cfg acct cons dec hlev).1
    · exact (lev1_bounds cfg acct cons dec hlev).2


/-- Witness for C1: a concrete accepted plan (equity=free=100, default
config, qty_step=0.001, entry=30000, sl=29970) satisfying all hypotheses of
buildPlan_ok_invariants. -/
theorem buildPlan_ok_invariants_witness :
    ∃ q L,
      (buildPlan {} ⟨100, 100⟩ { qty_step := some (1/1000) }
        { action_type := 1, direction := "LONG", entry_price := 30000,
          sl_price := 29970, tp_price := 30060, rr := 2, risk_unit := 30,
          confidence := some 1, decision_time_utc := 0 }).qty = some q ∧
      (buildPlan {} ⟨100, 100⟩ { qty_step := some (1/1000) }
        { action_type := 1, direction := "LONG", entry_price := 30000,
          sl_price := 29970, tp_price := 30060, rr := 2, risk_unit := 30,
          confidence := some 1, decision_time_utc := 0 }).leverage = some L ∧
      (buildPlan {} ⟨100, 100⟩ { qty_step := some (1/1000) }
        { action_type := 1, direction := "LONG", entry_price := 30000,
          sl_price := 29970, tp_price := 30060, rr := 2, risk_unit := 30,
          confidence := some 1, decision_time_utc := 0 }).notional_usdt
        = some (q * (30000 : ℚ)) ∧
      0 < q ∧ (∃ k : ℤ, q = k * (1/1000 : ℚ)) ∧
      minNotionalEff { qty_step := some (1/1000) } ≤ q * (30000 : ℚ) ∧
      q * (30000 : ℚ) / (L : ℚ) ≤ (3/10 : ℚ) * 100 ∧
      1 ≤ L ∧ L ≤ 10 :=
  buildPlan_ok_invariants {} ⟨100, 100⟩ { qty_step := some (1/1000) }
    { action_type := 1, direction := "LONG", entry_price := 30000,
      sl_price := 29970, tp_price := 30060, rr := 2, risk_unit := 30,
      confidence := some 1, decision_time_utc := 0 } (1/1000) _
    rfl (by norm_num) (by norm_num) (by norm_num) rfl
    (by with_unfolding_all decide)

/-- C1 counterexample.  The claim quantifies over every RiskConfig and
TradeDecision; it fails as stated on the source:
(a) with max_leverage = 0 the engine silently clamps leverage to 1 and
returns an ok plan whose leverage exceeds max_leverage;
(b) with a negative entry price and min_notional_policy="override_with_cap"
the engine returns an ok plan with a negative qty.
Both decisions pass TradeDecision.__post_init__ validation. -/
theorem buildPlan_claim_counterexample :
    (TradeDecision.valid
        { action_type := 1, direction := "LONG", entry_price := 100,
          sl_price := 99, tp_price := 102, rr := 2, risk_unit := 1,
          confidence := some 1, decision_time_utc := 0 } ∧
      (buildPlan { max_leverage := 0 } ⟨100, 100⟩ { qty_step := some (1/1000) }
        { action_type := 1, direction := "LONG", entry_price := 100,
          sl_price := 99, tp_price := 102, rr := 2, risk_unit := 1,
          confidence := some 1, decision_time_utc := 0 }).ok = true ∧
      (buildPlan { max_leverage := 0 } ⟨100, 100⟩ { qty_step := some (1/1000) }
        { action_type := 1, direction := "LONG", entry_price := 100,
          sl_price := 99, tp_price := 102, rr := 2, risk_unit := 1,
          confidence := some 1, decision_time_utc := 0 }).leverage = some 1 ∧
      ¬ ((1 : ℤ) ≤ (RiskConfig.max_leverage { max_leverage := 0 }))) ∧
    (TradeDecision.valid
        { action_type := 1, direction := "LONG", entry_price := -100,
          sl_price := -99, tp_price := -102, rr := 2, risk_unit := 1,
          confidence := some 1, decision_time_utc := 0 } ∧
      (buildPlan { min_notional_policy := "override_with_cap" } ⟨100, 100⟩
        { qty_step := some (1/1000) }
        { action_type := 1, direction := "LONG", entry_price := -100,
          sl_price := -99, tp_price := -102, rr := 2, risk_unit := 1,
          confidence := some 1, decision_time_utc := 0 }).ok = true ∧
      (buildPlan { min_notional_policy := "override_with_cap" } ⟨100, 100⟩
        { qty_step := some (1/1000) }
        { action_type := 1, direction := "LONG", entry_price := -100,
          sl_price := -99, tp_price := -102, rr := 2, risk_unit := 1,
          confidence := some 1, decision_time_utc := 0 }).qty = some (-1/20) ∧
      ¬ ((0 : ℚ) < -1/20)) := by
  with_unfolding_all decide

/-! ### Claim C7: the min-notional / leverage-raise scenario -/

/-- C7 (confirmed).  With equity=100, free=100, risk_per_trade_pct=0.25,
entry=30000, sl=29970, no qty step or min_qty, min_notional=5,
margin_utilization=0.3, default_leverage=3, max_leverage=10 (all the
RiskConfig defaults), build_plan returns ok=true with leverage=9 and
risk_usdt exactly 0.25: initial margin 250/3 exceeds the margin limit 30,
so leverage is raised to ceil(250/30)=9 which fits under max_leverage. -/
theorem buildPlan_min_notional_skip_scenario :
    buildPlan {} ⟨100, 100⟩ {}
      { action_type := 1, direction := "LONG", entry_price := 30000,
        sl_price := 29970, tp_price := 30060, rr := 2, risk_unit := 30,
        confidence := some 1, decision_time_utc := 0 } =
    { ok := true, reason := "ok", qty := some (1/120), notional_usdt := some 250,
      leverage := some 9, risk_usdt := some (1/4), risk_pct := some (1/4) } := by
  with_unfolding_all decide

/-! ## MFE/MAE calculator (trade_ai/domain/services/mfe_mae_calculator.py) -/

/-- One OHLC bar as consumed by calculate_mfe_mae_from_ohlc: only the
"high" and "low" keys are read, with the entry price as dict-get default
when a key is missing. -/
structure OhlcBar where
  high : Option ℚ := none
  low : Option ℚ := none
deriving DecidableEq, Repr

/-- Python max over a non-empty sequence, as a fold from the first
element. -/
def nonEmptyMax (x : ℚ) (xs : List ℚ) : ℚ := xs.foldl max x

/-- Python min over a non-empty sequence, as a fold from the first
element. -/
def nonEmptyMin (x : ℚ) (xs : List ℚ) : ℚ := xs.foldl min x

/-- calculate_mfe_mae_from_ohlc (mfe_mae_calculator.py lines 6-22),
transcribed: for LONG, (max(h-entry), min(l-entry)); otherwise
(max(entry-l), -(min(entry-h))).  Empty bars give (0, 0). -/
def calculateMfeMaeFromOhlc (entry : ℚ) (direction : String)
    (bars : List OhlcBar) : ℚ × ℚ :=
  match bars with
  | [] => (0, 0)
  | b :: bs =>
    if direction.toUpper = "LONG" then
      (nonEmptyMax (b.high.getD entry - entry)
        (bs.map (fun x => x.high.getD entry - entry)),
       nonEmptyMin (b.low.getD entry - entry)
        (bs.map (fun x => x.low.getD entry - entry)))
    else
      (nonEmptyMax (entry - b.low.getD entry)
        (bs.map (fun x => entry - x.low.getD entry)),
       -(nonEmptyMin (entry - b.high.getD entry)
        (bs.map (fun x => entry - x.high.getD entry))))

theorem le_foldl_max (x : ℚ) (xs : List ℚ) : x ≤ xs.foldl max x := by
  induction xs generalizing x with
  | nil => exact le_refl x
  | cons y ys ih => exact le_trans (le_max_left x y) (ih (max x y))

theorem mem_le_foldl_max (x y : ℚ) (xs : List ℚ) (hy : y ∈ xs) :
    y ≤ xs.foldl max x := by
  induction xs generalizing x with
  | nil => cases hy
  | cons z zs ih =>
    rcases List.mem_cons.mp hy with rfl | h
    · exact le_trans (le_max_right x y) (le_foldl_max _ _)
    · exact ih _ h

theorem foldl_max_cases (x : ℚ) (xs : List ℚ) :
    xs.foldl max x = x ∨ xs.foldl max x ∈ xs := by
  induction xs generalizing x with
  | nil => left; rfl
  | cons y ys ih =>
    rcases ih (max x y) with h | h
    · rcases le_total x y with hxy | hxy
      · right
        rw [List.foldl_cons, h, max_eq_right hxy]
        exact List.mem_cons_self _ _
      · left
        rw [List.foldl_cons, h, max_eq_left hxy]
    · right
      rw [List.foldl_cons]
      exact List.mem_cons_of_mem _ h

theorem foldl_min_le_init (x : ℚ) (xs : List ℚ) : xs.foldl min x ≤ x := by
  induction xs generalizing x with
  | nil => exact le_refl x
  | cons y ys ih => exact le_trans (ih (min x y)) (min_le_left x y)

theorem foldl_min_le (x y : ℚ) (xs : List ℚ) (hy : y ∈ xs) :
    xs.foldl min x ≤ y := by
  induction xs generalizing x with
  | nil => cases hy
  | cons z zs ih =>
    rcases List.mem_cons.mp hy with rfl | h
    · exact le_trans (foldl_min_le_init (min x y) zs) (min_le_right x y)
    · exact ih _ h

theorem foldl_min_cases (x : ℚ) (xs : List ℚ) :
    xs.foldl min x = x ∨ xs.foldl min x ∈ xs := by
  induction xs generalizing x with
  | nil => left; rfl
  | cons y ys ih =>
    rcases ih (min x y) with h | h
    · rcases le_total x y with hxy | hxy
      · left
        rw [List.foldl_cons, h, min_eq_left hxy]
      · right
        rw [List.foldl_cons, h, min_eq_right hxy]
        exact List.mem_cons_self _ _
    · right
      rw [List.foldl_cons]
      exact List.mem_cons_of_mem _ h

theorem nonEmptyMax_spec (f : OhlcBar → ℚ) (b : OhlcBar) (bs : List OhlcBar) :
    (∀ c ∈ b :: bs, f c ≤ nonEmptyMax (f b) (bs.map f)) ∧
    (∃ c ∈ b :: bs, nonEmptyMax (f b) (bs.map f) = f c) := by
  constructor
  · intro c hc
    rcases List.mem_cons.mp hc with rfl | h
    · exact le_foldl_max _ _
    · exact mem_le_foldl_max _ _ _ (List.mem_map_of_mem f h)
  · rcases foldl_max_cases (f b) (bs.map f) with h | h
    · exact ⟨b, List.mem_cons_self _ _, h⟩
    · rcases List.mem_map.mp h with ⟨c, hc, hfc⟩
      exact ⟨c, List.mem_cons_of_mem _ hc, hfc.symm⟩

theorem nonEmptyMin_spec (f : OhlcBar → ℚ) (b : OhlcBar) (bs : List OhlcBar) :
    (∀ c ∈ b :: bs, nonEmptyMin (f b) (bs.map f) ≤ f c) ∧
    (∃ c ∈ b :: bs, nonEmptyMin (f b) (bs.map f) = f c) := by
  constructor
  · intro c hc
    rcases List.mem_cons.mp hc with rfl | h
    · exact foldl_min_le_init _ _
    · exact foldl_min_le _ _ _ (List.mem_map_of_mem f h)
  · rcases foldl_min_cases (f b) (bs.map f) with h | h
    · exact ⟨b, List.mem_cons_self _ _, h⟩
    · rcases List.mem_map.mp h with ⟨c, hc, hfc⟩
      exact ⟨c, List.mem_cons_of_mem _ hc, hfc.symm⟩

/-! ### Claim C4: MFE/MAE characterization -/

/-- C4 (amended).  For every entry price and non-empty OHLC window:
for LONG the computed MFE is exactly the maximum over bars of (high - entry)
and the computed MAE is exactly the *signed* minimum over bars of
(low - entry) (no absolute value is taken); for SHORT the MFE is the
maximum of (entry - low) and the negated MAE is the minimum of
(entry - high).  Each value is characterized as a bound attained by some
bar.  The absolute value and the nonnegativity asserted by the original
claim do not hold (see calculateMfeMae_claim_counterexample). -/
theorem calculateMfeMae_minmax (entry : ℚ) (bars : List OhlcBar) (hne : bars ≠ []) :
    (∀ c ∈ bars, c.high.getD entry - entry ≤ (calculateMfeMaeFromOhlc entry "LONG" bars).1) ∧
    (∃ c ∈ bars, (calculateMfeMaeFromOhlc entry "LONG" bars).1 = c.high.getD entry - entry) ∧
    (∀ c ∈ bars, (calculateMfeMaeFromOhlc entry "LONG" bars).2 ≤ c.low.getD entry - entry) ∧
    (∃ c ∈ bars, (calculateMfeMaeFromOhlc entry "LONG" bars).2 = c.low.getD entry - entry) ∧
    (∀ c ∈ bars, entry - c.low.getD entry ≤ (calculateMfeMaeFromOhlc entry "SHORT" bars).1) ∧
    (∃ c ∈ bars, (calculateMfeMaeFromOhlc entry "SHORT" bars).1 = entry - c.low.getD entry) ∧
    (∀ c ∈ bars, -(calculateMfeMaeFromOhlc entry "SHORT" bars).2 ≤ entry - c.high.getD entry) ∧
    (∃ c ∈ bars, -(calculateMfeMaeFromOhlc entry "SHORT" bars).2 = entry - c.high.getD entry) := by
  obtain ⟨b, bs, rfl⟩ : ∃ b bs, bars = b :: bs := by
    cases bars with
    | nil => exact absurd rfl hne
    | cons b bs => exact ⟨b, bs, rfl⟩
  have hL : calculateMfeMaeFromOhlc entry "LONG" (b :: bs)
      = (nonEmptyMax (b.high.getD entry - entry)
          (bs.map (fun x => x.high.getD entry - entry)),
         nonEmptyMin (b.low.getD entry - entry)
          (bs.map (fun x => x.low.getD entry - entry))) := by with_unfolding_all rfl
  have hS : calculateMfeMaeFromOhlc entry "SHORT" (b :: bs)
      = (nonEmptyMax (entry - b.low.getD entry)
          (bs.map (fun x => entry - x.low.getD entry)),
         -(nonEmptyMin (entry - b.high.getD entry)
          (bs.map (fun x => entry - x.high.getD entry)))) := by with_unfolding_all rfl
  rw [hL, hS]
  dsimp only
  refine ⟨(nonEmptyMax_spec (fun x => x.high.getD entry - entry) b bs).1,
    (nonEmptyMax_spec (fun x => x.high.getD entry - entry) b bs).2,
    (nonEmptyMin_spec (fun x => x.low.getD entry - entry) b bs).1,
    (nonEmptyMin_spec (fun x => x.low.getD entry - entry) b bs).2,
    (nonEmptyMax_spec (fun x => entry - x.low.getD entry) b bs).1,
    (nonEmptyMax_spec (fun x => entry - x.low.getD entry) b bs).2, ?_, ?_⟩
  · simpa [neg_neg] using (nonEmptyMin_spec (fun x => entry - x.high.getD entry) b bs).1
  · simpa [neg_neg] using (nonEmptyMin_spec (fun x => entry - x.high.getD entry) b bs).2


/-- Witness for C4: the LONG MFE of a concrete one-bar window is attained
by that bar. -/
theorem calculateMfeMae_minmax_witness :
    ∃ c ∈ [({ high := some 105, low := some 90 } : OhlcBar)],
      (calculateMfeMaeFromOhlc 100 "LONG" [{ high := some 105, low := some 90 }]).1
        = c.high.getD 100 - 100 :=
  (calculateMfeMae_minmax 100 [{ high := some 105, low := some 90 }] (by simp)).2.1

/-- C4 counterexample.  The source returns signed MFE/MAE values: for
entry=100, LONG, one bar (high=105, low=90) the computed MAE is -10, not
|min(low-entry)| = 10, and it is negative; with a bar fully below entry the
LONG MFE is negative too; for SHORT with the whole bar below entry the
computed MAE is also negative, contradicting the mirrored formula. -/
theorem calculateMfeMae_claim_counterexample :
    calculateMfeMaeFromOhlc 100 "LONG" [{ high := some 105, low := some 90 }]
      = (5, -10) ∧
    ¬ ((0:ℚ) ≤ -10) ∧ ((-10 : ℚ) ≠ |(-10 : ℚ)|) ∧
    calculateMfeMaeFromOhlc 100 "LONG" [{ high := some 95, low := some 90 }]
      = (-5, -10) ∧
    ¬ ((0:ℚ) ≤ -5) ∧
    calculateMfeMaeFromOhlc 100 "SHORT" [{ high := some 90, low := some 85 }]
      = (15, -10) := by
  with_unfolding_all decide

/-! ## JSON-like dict values

Python dict payloads (snapshots, policy_info) are modelled by an inductive
value type and association lists of (key, value) pairs. -/

/-- A JSON-like Python value. -/
inductive JVal where
  | null
  | bool (b : Bool)
  | int (n : ℤ)
  | num (q : ℚ)
  | str (s : String)
  | dict (fields : List (String × JVal))

/-- Python truthiness of a value (used by `data.get("snapshot_id") or ...`):
None, False, 0, "" and {} are falsy. -/
def JVal.truthy : JVal → Bool
  | .null => false
  | .bool b => b
  | .int n => decide (n ≠ 0)
  | .num q => decide (q ≠ 0)
  | .str s => decide (s ≠ "")
  | .dict fields => !fields.isEmpty

/-- Python str() of a value, for the cases exercised by the snapshot
claims (string payloads are returned unchanged; the numeric renderings
follow Python for integers). -/
def JVal.pyStr : JVal → String
  | .null => "None"
  | .bool b => if b then "True" else "False"
  | .int n => toString n
  | .num q => toString q
  | .str s => s
  | .dict _ => "dict"

/-- First-match association-list lookup, the model of Python dict.get. -/
def jget (data : List (String × JVal)) (k : String) : Option JVal :=
  match data.find? (fun kv => kv.1 = k) with
  | some kv => some kv.2
  | none => none

/-! ## Trade aggregate (trade_ai/domain/entities/trade_aggregate.py) -/

/-- trade_ai/domain/entities/execution_state.py, dataclass ExecutionState. -/
structure ExecutionState where
  status : String
  entry_time_utc : Option ℤ := none
  entry_fill_price : Option ℚ := none
  exit_time_utc : Option ℤ := none
  exit_fill_price : Option ℚ := none
  exit_type : Option String := none
  fees_total : ℚ := 0
  funding_paid : ℚ := 0
  exchange : Option String := none
  account_type : Option String := none
  margin_mode : Option String := none
  position_mode : Option String := none
  leverage : Option ℤ := none
  qty : Option ℚ := none
  notional : Option ℚ := none
  entry_order_id : Option String := none
  tp_order_id : Option String := none
  sl_order_id : Option String := none
  client_order_id : Option String := none

/-- trade_ai/domain/entities/reward_state.py, dataclass RewardState. -/
structure RewardState where
  pnl_raw : ℚ
  pnl_r : ℚ
  mfe : ℚ
  mae : ℚ
  holding_seconds : ℤ
  reward_version : String := "v1"
  pnl_usdt : Option ℚ := none
  risk_usdt : Option ℚ := none
  qty : Option ℚ := none
  fees_usdt : Option ℚ := none
  funding_usdt : Option ℚ := none

/-- trade_ai/domain/entities/trade_aggregate.py, dataclass TradeAggregate. -/
structure TradeAggregate where
  schema_version : String
  trade_id : String
  symbol : String
  entry_snapshot_id : String
  exit_snapshot_id : Option String
  entry_snapshot_time_utc : ℤ
  exit_snapshot_time_utc : Option ℤ
  decision : TradeDecision
  execution_state : ExecutionState
  reward_state : Option RewardState
  policy_info : List (String × JVal)

/-- TradeAggregate.create_open (trade_aggregate.py lines 29-45). -/
def TradeAggregate.createOpen (trade_id symbol entry_snapshot_id : String)
    (entry_snapshot_time_utc : ℤ) (decision : TradeDecision)
    (policy_info : List (String × JVal)) : TradeAggregate :=
  { schema_version := "v3"
    trade_id := trade_id
    symbol := symbol
    entry_snapshot_id := entry_snapshot_id
    exit_snapshot_id := none
    entry_snapshot_time_utc := entry_snapshot_time_utc
    exit_snapshot_time_utc := none
    decision := decision
    execution_state := { status := "OPEN" }
    reward_state := none
    policy_info := policy_info }

/-- `if new is not None: old = new` on an optional field. -/
def updIfSome {α : Type} (new old : Option α) : Option α :=
  match new with
  | some v => some v
  | none => old

/-- TradeAggregate.attach_execution (trade_aggregate.py lines 47-94).
Mutation of self is modelled by returning the updated aggregate; raising
TradeAggregateError is modelled by Except.error, which leaves the input
aggregate unchanged. -/
def TradeAggregate.attachExecution (agg : TradeAggregate)
    (execution : ExecutionState) : Except String TradeAggregate :=
  if agg.execution_state.status = "CLOSED" then
    .error "execution already closed"
  else
    let es := agg.execution_state
    let es :=
      { es with
        entry_time_utc := updIfSome execution.entry_time_utc es.entry_time_utc,
        entry_fill_price := updIfSome execution.entry_fill_price es.entry_fill_price,
        exchange := updIfSome execution.exchange es.exchange,
        account_type := updIfSome execution.account_type es.account_type,
        margin_mode := updIfSome execution.margin_mode es.margin_mode,
        position_mode := updIfSome execution.position_mode es.position_mode,
        leverage := updIfSome execution.leverage es.leverage,
        qty := updIfSome execution.qty es.qty,
        notional := updIfSome execution.notional es.notional,
        entry_order_id := updIfSome execution.entry_order_id es.entry_order_id,
        tp_order_id := updIfSome execution.tp_order_id es.tp_order_id,
        sl_order_id := updIfSome execution.sl_order_id es.sl_order_id,
        client_order_id := updIfSome execution.client_order_id es.client_order_id }
    if execution.status = "OPEN" then
      .ok { agg with execution_state :=
        { es with fees_total := execution.fees_total,
                  funding_paid := execution.funding_paid } }
    else
      .ok { agg with execution_state :=
        { es with exit_time_utc := execution.exit_time_utc,
                  exit_fill_price := execution.exit_fill_price,
                  exit_type := execution.exit_type,
                  fees_total := execution.fees_total,
                  funding_paid := execution.funding_paid,
                  status := "CLOSED" } }

/-- TradeAggregate.attach_reward (trade_aggregate.py lines 96-99). -/
def TradeAggregate.attachReward (agg : TradeAggregate) (reward : RewardState) :
    Except String TradeAggregate :=
  if agg.execution_state.status ≠ "CLOSED" then
    .error "cannot attach reward unless trade is CLOSED"
  else
    .ok { agg with reward_state := some reward }

/-! ### Claim C3: CLOSED is terminal and rewards only attach after close -/

/-- C3 (confirmed).  For every TradeAggregate whose execution status is
CLOSED, attach_execution raises TradeAggregateError (so the aggregate is
unchanged: the error branch returns before any field is touched, which the
Except embedding models by not producing an updated aggregate); and
attach_reward raises unless the execution status is CLOSED, while on a
CLOSED aggregate it returns the aggregate with only reward_state set, so a
reward can only ever be attached after the trade has closed. -/
theorem tradeAggregate_closed_terminal (agg : TradeAggregate)
    (e : ExecutionState) (r : RewardState) :
    (agg.execution_state.status = "CLOSED" →
      agg.attachExecution e = .error "execution already closed") ∧
    (agg.execution_state.status ≠ "CLOSED" →
      agg.attachReward r = .error "cannot attach reward unless trade is CLOSED") ∧
    (agg.execution_state.status = "CLOSED" →
      agg.attachReward r = .ok { agg with reward_state := some r }) := by
  refine ⟨fun h => ?_, fun h => ?_, fun h => ?_⟩
  · simp [TradeAggregate.attachExecution, h]
  · simp [TradeAggregate.attachReward, h]
  · simp [TradeAggregate.attachReward, h]

/-- Witness for C3: a concrete closed aggregate rejects attach_execution
and accepts attach_reward. -/
theorem tradeAggregate_closed_terminal_witness :
    (TradeAggregate.attachExecution
      { schema_version := "v3", trade_id := "t1", symbol := "BTCUSDT",
        entry_snapshot_id := "s1", exit_snapshot_id := none,
        entry_snapshot_time_utc := 0, exit_snapshot_time_utc := none,
        decision :=
          { action_type := 1, direction := "LONG", entry_price := 100,
            sl_price := 99, tp_price := 102, rr := 2, risk_unit := 1,
            confidence := some 1, decision_time_utc := 0 },
        execution_state := { status := "CLOSED" }, reward_state := none,
        policy_info := [] }
      { status := "CLOSED" } = .error "execution already closed") ∧
    (TradeAggregate.attachReward
      { schema_version := "v3", trade_id := "t1", symbol := "BTCUSDT",
        entry_snapshot_id := "s1", exit_snapshot_id := none,
        entry_snapshot_time_utc := 0, exit_snapshot_time_utc := none,
        decision :=
          { action_type := 1, direction := "LONG", entry_price := 100,
            sl_price := 99, tp_price := 102, rr := 2, risk_unit := 1,
            confidence := some 1, decision_time_utc := 0 },
        execution_state := { status := "OPEN" }, reward_state := none,
        policy_info := [] }
      { pnl_raw := 1, pnl_r := 1, mfe := 1, mae := 0, holding_seconds := 60 }
      = .error "cannot attach reward unless trade is CLOSED") :=
  ⟨(tradeAggregate_closed_terminal _ { status := "CLOSED" }
      { pnl_raw := 1, pnl_r := 1, mfe := 1, mae := 0, holding_seconds := 60 }).1 rfl,
   (tradeAggregate_closed_terminal _ { status := "CLOSED" }
      { pnl_raw := 1, pnl_r := 1, mfe := 1, mae := 0, holding_seconds := 60 }).2.1
      (by simp)⟩

/-! ## Snapshot entity (trade_ai/domain/entities/snapshot.py) -/

/-- snapshot.py dataclass SnapshotV3 (frozen). -/
structure SnapshotV3 where
  schema_version : String
  snapshot_id : String
  snapshot_time_utc : ℤ
  symbol : String
  observer_time_utc : ℤ
  ltf : List (String × JVal)
  htf : JVal
  context : JVal

/-- SnapshotV3._forbidden_keys (snapshot.py lines 23-38): the exact set the
source checks. -/
def forbiddenKeys : List String :=
  ["decision", "execution_state", "reward_state", "risk_unit", "pnl",
   "pnl_raw", "pnl_r", "exit_price", "exit_time_utc", "tp_price",
   "sl_price", "rr"]

/-- Value-is-the-string-v3 check for the schema_version gate. -/
def isStrV3 : Option JVal → Bool
  | some (.str s) => s = "v3"
  | _ => false

/-- Python `x is None` on a dict payload: missing key or null value. -/
def presentVal (v : Option JVal) : Option JVal :=
  match v with
  | some .null => none
  | some v => some v
  | none => none

/-- SnapshotV3.from_dict (snapshot.py lines 40-77).  `fresh` stands for the
uuid4 fallback used when snapshot_id is falsy.  Timestamps are modelled as
integer payloads; other timestamp payload shapes are modelled as validation
errors (for the dict shapes exercised by the claims - ints from the
builder and from to_dict - this matches the source, which raises on
missing values and on `snapshot_time_utc > observer_time_utc`). -/
def SnapshotV3.fromDict (fresh : String) (data : List (String × JVal)) :
    Except String SnapshotV3 :=
  if forbiddenKeys.any (fun k => (jget data k).isSome) then
    .error "Forbidden fields in snapshot"
  else if ¬ isStrV3 (jget data "schema_version") then
    .error "schema_version must be v3"
  else
    match presentVal (jget data "snapshot_time_utc"),
          presentVal (jget data "observer_time_utc") with
    | some (.int st), some (.int ot) =>
      if st > ot then
        .error "snapshot_time_utc must be <= observer_time_utc"
      else
        match jget data "ltf" with
        | some (.dict ltf) =>
          .ok { schema_version := "v3"
                snapshot_id :=
                  (match jget data "snapshot_id" with
                   | some v => if v.truthy then v else .str fresh
                   | none => .str fresh).pyStr
                snapshot_time_utc := st
                symbol := ((jget data "symbol").getD (.str "")).pyStr
                observer_time_utc := ot
                ltf := ltf
                htf := (jget data "htf").getD (.dict [])
                context := (jget data "context").getD (.dict []) }
        | _ => .error "ltf must be dict"
    | some _, some _ => .error "timestamp payloads must be integers"
    | _, _ => .error "snapshot_time_utc and observer_time_utc required"

/-- SnapshotV3.to_dict (snapshot.py lines 79-89). -/
def SnapshotV3.toDict (s : SnapshotV3) : List (String × JVal) :=
  [("schema_version", .str s.schema_version),
   ("snapshot_id", .str s.snapshot_id),
   ("snapshot_time_utc", .int s.snapshot_time_utc),
   ("symbol", .str s.symbol),
   ("observer_time_utc", .int s.observer_time_utc),
   ("ltf", .dict s.ltf),
   ("htf", s.htf),
   ("context", s.context)]

/-! ## Snapshot repository and observer usecase
(trade_ai/infrastructure/storage/snapshot_repo_fs_json.py and
trade_ai/application/usecases/observer_usecase.py) -/

/-- The snapshots directory: filename (snapshot id) to stored JSON dict. -/
abbrev SnapshotStore := List (String × List (String × JVal))

/-- SnapshotRepoFSJson.save (snapshot_repo_fs_json.py lines 18-22): refuse
to overwrite an existing file, else write to_dict under the id. -/
def snapshotRepoSave (store : SnapshotStore) (snapshot : SnapshotV3) :
    Except String SnapshotStore :=
  if (store.find? (fun kv => kv.1 = snapshot.snapshot_id)).isSome then
    .error "Snapshot immutable and exists"
  else
    .ok ((snapshot.snapshot_id, snapshot.toDict) :: store)

/-- SnapshotRepoFSJson.get (snapshot_repo_fs_json.py lines 24-29): read the
stored JSON and rehydrate through from_dict. -/
def snapshotRepoGet (fresh : String) (store : SnapshotStore) (id : String) :
    Option (Except String SnapshotV3) :=
  match store.find? (fun kv => kv.1 = id) with
  | none => none
  | some kv => some (SnapshotV3.fromDict fresh kv.2)

/-- Python substring containment `needle in hay`. -/
def strContainsSub (hay needle : String) : Bool :=
  hay.data.tails.any (fun t => needle.data.isPrefixOf t)

/-- ObserverUsecase.create_snapshot (observer_usecase.py lines 12-25):
validate, save; when the save error message mentions both "immutable" and
"exists", return the previously stored snapshot instead.  The store is
returned alongside the snapshot; an error leaves the caller's store
untouched. -/
def createSnapshot (fresh : String) (store : SnapshotStore)
    (raw : List (String × JVal)) : Except String (SnapshotV3 × SnapshotStore) :=
  match SnapshotV3.fromDict fresh raw with
  | .error e => .error e
  | .ok snap =>
    match snapshotRepoSave store snap with
    | .ok store2 => .ok (snap, store2)
    | .error msg =>
      if strContainsSub msg "immutable" && strContainsSub msg "exists" then
        match snapshotRepoGet fresh store snap.snapshot_id with
        | some (.ok existing) => .ok (existing, store)
        | some (.error e) => .error e
        | none => .error msg
      else .error msg

/-- to_dict followed by from_dict returns the same snapshot, for any
snapshot satisfying the constructor invariants (schema "v3", non-empty id,
time ordering).  This is how SnapshotRepoFSJson.get rehydrates stored
files. -/
theorem fromDict_toDict (fresh : String) (s : SnapshotV3)
    (hv : s.schema_version = "v3") (hid : s.snapshot_id ≠ "")
    (ht : s.snapshot_time_utc ≤ s.observer_time_utc) :
    SnapshotV3.fromDict fresh s.toDict = .ok s := by
  have h1 : (forbiddenKeys.any (fun k => (jget s.toDict k).isSome)) = false := by
    with_unfolding_all rfl
  rw [SnapshotV3.fromDict, h1]
  simp only [Bool.false_eq_true, if_false]
  have h2 : isStrV3 (jget s.toDict "schema_version") = true := by
    simp [jget, SnapshotV3.toDict, List.find?, isStrV3, hv]
  rw [if_neg (by simp [h2])]
  show (if s.snapshot_time_utc > s.observer_time_utc then
      (.error "snapshot_time_utc must be <= observer_time_utc" : Except String SnapshotV3)
    else _) = _
  rw [if_neg (not_lt.2 ht)]
  show (Except.ok
    { schema_version := "v3"
      snapshot_id := (if JVal.truthy (.str s.snapshot_id) then JVal.str s.snapshot_id
        else .str fresh).pyStr
      snapshot_time_utc := s.snapshot_time_utc
      symbol := s.symbol
      observer_time_utc := s.observer_time_utc
      ltf := s.ltf
      htf := s.htf
      context := s.context } : Except String SnapshotV3) = Except.ok s
  rw [if_pos (show JVal.truthy (.str s.snapshot_id) = true by simp [JVal.truthy, hid])]
  rw [← hv]
  rfl


/-! ### Claim C5: forbidden-key snapshots are rejected -/

/-- C5 (amended).  For every input dict containing one of the twelve
literal forbidden keys checked by the source (decision, execution_state,
reward_state, risk_unit, pnl, pnl_raw, pnl_r, exit_price, exit_time_utc,
tp_price, sl_price, rr), SnapshotV3.from_dict raises a validation error and
ObserverUsecase.create_snapshot propagates it, storing no snapshot record
(the error result carries no updated store).  The spec's wildcard patterns
pnl* and exit_* are NOT enforced beyond these literals
(see snapshot_forbidden_claim_counterexample). -/
theorem fromDict_forbidden_rejects (fresh : String) (store : SnapshotStore)
    (data : List (String × JVal))
    (h : (forbiddenKeys.any (fun k => (jget data k).isSome)) = true) :
    SnapshotV3.fromDict fresh data = .error "Forbidden fields in snapshot" ∧
    createSnapshot fresh store data = .error "Forbidden fields in snapshot" := by
  have h1 : SnapshotV3.fromDict fresh data = .error "Forbidden fields in snapshot" := by
    rw [SnapshotV3.fromDict, if_pos h]
  exact ⟨h1, by simp [createSnapshot, h1]⟩

/-- Witness for C5: a raw dict carrying the "decision" key is rejected and
nothing is stored. -/
theorem fromDict_forbidden_rejects_witness :
    SnapshotV3.fromDict "f" [("decision", .str "x")]
      = .error "Forbidden fields in snapshot" ∧
    createSnapshot "f" [] [("decision", .str "x")]
      = .error "Forbidden fields in snapshot" :=
  fromDict_forbidden_rejects "f" [] [("decision", .str "x")] (by rfl)

/-- Follows the spec's words, for comparison with the source list
forbiddenKeys: the spec declares the glob patterns `pnl*` and `exit_*`
forbidden in addition to the literal keys. -/
def specForbiddenKey (k : String) : Bool :=
  decide (k ∈ ["decision", "execution_state", "reward_state", "risk_unit",
    "tp_price", "sl_price", "rr"]) ||
  "pnl".data.isPrefixOf k.data || "exit_".data.isPrefixOf k.data

/-- C5 counterexample.  "pnl_usdt" (a RewardState field) matches the
spec's pnl* pattern, yet from_dict accepts a snapshot dict containing it:
the source only rejects the twelve literal keys.  Likewise "exit_type"
(an ExecutionState field) matches exit_* but is accepted. -/
theorem snapshot_forbidden_claim_counterexample :
    specForbiddenKey "pnl_usdt" = true ∧
    specForbiddenKey "exit_type" = true ∧
    SnapshotV3.fromDict "f"
      [("schema_version", .str "v3"), ("snapshot_id", .str "abc"),
       ("snapshot_time_utc", .int 100), ("observer_time_utc", .int 100),
       ("ltf", .dict []), ("pnl_usdt", .num 1), ("exit_type", .str "TP")]
      = .ok { schema_version := "v3", snapshot_id := "abc",
              snapshot_time_utc := 100, symbol := "",
              observer_time_utc := 100, ltf := [], htf := .dict [],
              context := .dict [] } :=
  ⟨rfl, rfl, rfl⟩

/-! ### Claim C6: write-once store and idempotent re-creation -/

/-- C6 (confirmed).  For every store already containing the snapshot id:
(1) SnapshotRepoFSJson.save refuses with "Snapshot immutable and exists"
and does not overwrite the stored file; (2) ObserverUsecase.create_snapshot
on a raw dict validating to that id returns the previously stored snapshot
(rehydrated through from_dict, hence the stored version, not the new one)
and leaves the store unchanged. -/
theorem snapshot_store_write_once_idempotent
    (fresh : String) (store : SnapshotStore) (raw : List (String × JVal))
    (snap s0 : SnapshotV3)
    (hfd : SnapshotV3.fromDict fresh raw = .ok snap)
    (hlook : store.find? (fun kv => kv.1 = snap.snapshot_id)
      = some (snap.snapshot_id, s0.toDict))
    (hv : s0.schema_version = "v3") (hid : s0.snapshot_id ≠ "")
    (ht : s0.snapshot_time_utc ≤ s0.observer_time_utc) :
    snapshotRepoSave store snap = .error "Snapshot immutable and exists" ∧
    createSnapshot fresh store raw = .ok (s0, store) := by
  have hsave : snapshotRepoSave store snap = .error "Snapshot immutable and exists" := by
    rw [snapshotRepoSave, if_pos (by rw [hlook]; rfl)]
  refine ⟨hsave, ?_⟩
  have hget : snapshotRepoGet fresh store snap.snapshot_id
      = some (SnapshotV3.fromDict fresh s0.toDict) := by
    rw [snapshotRepoGet, hlook]
  have hsub : (strContainsSub "Snapshot immutable and exists" "immutable" &&
      strContainsSub "Snapshot immutable and exists" "exists") = true := rfl
  simp only [createSnapshot, hfd, hsave, hsub, if_true, hget,
    fromDict_toDict fresh s0 hv hid ht]

/-- Witness for C6: a store already holding id "abc" (an older snapshot
with symbol "OLD") rejects the save of a new "abc" snapshot, and
create_snapshot returns the old stored version with the store unchanged. -/
theorem snapshot_store_write_once_idempotent_witness :
    snapshotRepoSave
      [("abc", SnapshotV3.toDict
        { schema_version := "v3", snapshot_id := "abc", snapshot_time_utc := 50,
          symbol := "OLD", observer_time_utc := 60, ltf := [],
          htf := .dict [], context := .dict [] })]
      { schema_version := "v3", snapshot_id := "abc", snapshot_time_utc := 100,
        symbol := "NEW", observer_time_utc := 100, ltf := [],
        htf := .dict [], context := .dict [] }
      = .error "Snapshot immutable and exists" ∧
    createSnapshot "f"
      [("abc", SnapshotV3.toDict
        { schema_version := "v3", snapshot_id := "abc", snapshot_time_utc := 50,
          symbol := "OLD", observer_time_utc := 60, ltf := [],
          htf := .dict [], context := .dict [] })]
      [("schema_version", .str "v3"), ("snapshot_id", .str "abc"),
       ("snapshot_time_utc", .int 100), ("observer_time_utc", .int 100),
       ("symbol", .str "NEW"), ("ltf", .dict [])]
      = .ok
        ({ schema_version := "v3", snapshot_id := "abc", snapshot_time_utc := 50,
           symbol := "OLD", observer_time_utc := 60, ltf := [],
           htf := .dict [], context := .dict [] },
         [("abc", SnapshotV3.toDict
           { schema_version := "v3", snapshot_id := "abc", snapshot_time_utc := 50,
             symbol := "OLD", observer_time_utc := 60, ltf := [],
             htf := .dict [], context := .dict [] })]) :=
  snapshot_store_write_once_idempotent "f" _ _
    { schema_version := "v3", snapshot_id := "abc", snapshot_time_utc := 100,
      symbol := "NEW", observer_time_utc := 100, ltf := [],
      htf := .dict [], context := .dict [] }
    { schema_version := "v3", snapshot_id := "abc", snapshot_time_utc := 50,
      symbol := "OLD", observer_time_utc := 60, ltf := [],
      htf := .dict [], context := .dict [] }
    rfl rfl rfl (by simp) (by norm_num)

/-! ## Model scorer (trade_ai/domain/services/model_scorer_v1.py) -/

/-- model_scorer_v1.py, dataclass ScoreOutput. -/
structure ScoreOutput where
  score : ℚ
  model_type : String
  model_path : String
deriving DecidableEq, Repr

/-- The scorer state after _load_best_effort (model_scorer_v1.py lines
42-93): either no model (no path configured, missing file, or every loader
failed - the source then sets _model=None/_loaded_type="none"), or a
loaded booster/estimator.  The external library predict calls are
modelled as functions that may raise (Except). -/
inductive ScorerModel where
  | noModel
  | xgbBooster (predict : List ℚ → Except String (List ℚ))
  | lgbBooster (predict : List ℚ → Except String (List ℚ))
  | joblibModel (predictProba : List ℚ → Except String (List (List ℚ)))
      (predict : List ℚ → Except String (List ℚ))

/-- model_scorer_v1.py lines 128-135: the joblib fallback chain
(predict with 0/1 thresholding; any further failure yields neutral 1.0). -/
def joblibFallback (modelPath : String)
    (predict : List ℚ → Except String (List ℚ)) (features : List ℚ) :
    ScoreOutput :=
  match predict features with
  | .ok (x :: _) => ⟨if (1:ℚ)/2 ≤ x then 1 else 0, "joblib", modelPath⟩
  | .ok [] => ⟨1, "joblib", modelPath⟩
  | .error _ => ⟨1, "joblib", modelPath⟩

/-- ModelScorerV1.score (model_scorer_v1.py lines 95-137).  Note the
source guards the joblib branch with try/except but calls the xgboost and
lightgbm Booster predict without any try: a predict exception there
propagates to the caller, which the Except result models. -/
def modelScorerScore (modelPath : String) (m : ScorerModel)
    (features : List ℚ) : Except String ScoreOutput :=
  match m with
  | .noModel => .ok ⟨1, "none", modelPath⟩
  | .xgbBooster predict =>
    match predict features with
    | .error e => .error e
    | .ok pred =>
      .ok ⟨max 0 (min 1 (match pred with | [] => (1:ℚ)/2 | x :: _ => x)),
        "xgb_booster", modelPath⟩
  | .lgbBooster predict =>
    match predict features with
    | .error e => .error e
    | .ok pred =>
      .ok ⟨max 0 (min 1 (match pred with | [] => (1:ℚ)/2 | x :: _ => x)),
        "lgb_booster", modelPath⟩
  | .joblibModel predictProba predict =>
    match predictProba features with
    | .ok ((_ :: p1 :: _) :: _) => .ok ⟨max 0 (min 1 p1), "joblib", modelPath⟩
    | .ok _ => .ok (joblibFallback modelPath predict features)
    | .error _ => .ok (joblibFallback modelPath predict features)

/-! ### Claim C8: scorer neutrality and range -/

/-- C8 (amended).  ModelScorerV1.score returns a score in [0,1] whenever
it returns; with no model loaded (no path configured, or loading left no
model) it returns exactly the neutral 1.0; and predict failures of a
joblib-loaded estimator are tolerated (the fallback chain ends in the
neutral 1.0).  However a predict failure of an xgboost/lightgbm booster
propagates as an exception (see modelScorer_claim_counterexample), so the
original "any load/predict failure yields neutral" does not hold. -/
theorem modelScorer_score_properties :
    (∀ path feats, modelScorerScore path .noModel feats = .ok ⟨1, "none", path⟩) ∧
    (∀ path m feats out, modelScorerScore path m feats = .ok out →
      0 ≤ out.score ∧ out.score ≤ 1) ∧
    (∀ path pp p feats e1 e2, pp feats = .error e1 → p feats = .error e2 →
      modelScorerScore path (.joblibModel pp p) feats = .ok ⟨1, "joblib", path⟩) := by
  have hclamp : ∀ s : ℚ, 0 ≤ max 0 (min 1 s) ∧ max 0 (min 1 s) ≤ 1 := by
    intro s
    exact ⟨le_max_left 0 _, max_le (by norm_num) (min_le_left 1 s)⟩
  refine ⟨fun path feats => rfl, ?_, ?_⟩
  · intro path m feats out h
    cases m with
    | noModel =>
      simp only [modelScorerScore, Except.ok.injEq] at h
      rw [← h]
      exact ⟨by norm_num, by norm_num⟩
    | xgbBooster predict =>
      rw [modelScorerScore] at h
      cases hp : predict feats with
      | error e => rw [hp] at h; cases h
      | ok pred =>
        rw [hp] at h
        simp only [Except.ok.injEq] at h
        rw [← h]
        exact hclamp _
    | lgbBooster predict =>
      rw [modelScorerScore] at h
      cases hp : predict feats with
      | error e => rw [hp] at h; cases h
      | ok pred =>
        rw [hp] at h
        simp only [Except.ok.injEq] at h
        rw [← h]
        exact hclamp _
    | joblibModel pp p =>
      have hfb : ∀ out, joblibFallback path p feats = out →
          0 ≤ out.score ∧ out.score ≤ 1 := by
        intro out hout
        rw [joblibFallback] at hout
        rcases hq : p feats with e | pred
        · rw [hq] at hout; rw [← hout]; exact ⟨by norm_num, by norm_num⟩
        · rw [hq] at hout
          cases pred with
          | nil => rw [← hout]; exact ⟨by norm_num, by norm_num⟩
          | cons x xs =>
            rw [← hout]
            dsimp only
            by_cases hx : (1:ℚ)/2 ≤ x
            · rw [if_pos hx]
              norm_num
            · rw [if_neg hx]
              norm_num
      rw [modelScorerScore] at h
      rcases hq : pp feats with e | proba
      · rw [hq] at h
        simp only [Except.ok.injEq] at h
        exact hfb out h
      · rw [hq] at h
        match proba, h with
        | [], h =>
          simp only [Except.ok.injEq] at h
          exact hfb out h
        | (([]) : List ℚ) :: rest, h =>
          simp only [Except.ok.injEq] at h
          exact hfb out h
        | (p0 :: ([])) :: rest, h =>
          simp only [Except.ok.injEq] at h
          exact hfb out h
        | (p0 :: p1 :: ptl) :: rest, h =>
          simp only [Except.ok.injEq] at h
          rw [← h]
          exact hclamp _
  · intro path pp p feats e1 e2 h1 h2
    rw [modelScorerScore, h1, joblibFallback, h2]

/-- Witness for C8: concrete neutral score, concrete in-range clamped
score, and concrete joblib double-failure falling back to neutral. -/
theorem modelScorer_score_properties_witness :
    modelScorerScore "" .noModel [] = .ok ⟨1, "none", ""⟩ ∧
    (0 ≤ (ScoreOutput.mk (1/2) "xgb_booster" "x").score ∧
      (ScoreOutput.mk (1/2) "xgb_booster" "x").score ≤ 1) ∧
    modelScorerScore "p"
      (.joblibModel (fun _ => .error "proba failed") (fun _ => .error "predict failed"))
      [2] = .ok ⟨1, "joblib", "p"⟩ :=
  ⟨modelScorer_score_properties.1 "" [],
   modelScorer_score_properties.2.1 "x" (.xgbBooster (fun _ => .ok [1/2])) []
     ⟨1/2, "xgb_booster", "x"⟩ (by with_unfolding_all rfl),
   modelScorer_score_properties.2.2 "p" _ _ [2] "proba failed" "predict failed"
     rfl rfl⟩

/-- C8 counterexample.  A loaded xgboost booster whose predict raises
(e.g. on a feature-shape mismatch) makes score raise too - the source has
no try/except around the booster predict calls (model_scorer_v1.py lines
103-118) - contradicting "any load/predict failure yields the neutral
score rather than an exception". -/
theorem modelScorer_claim_counterexample :
    modelScorerScore "model.json"
      (.xgbBooster (fun _ => .error "predict failed")) [1]
      = .error "predict failed" ∧
    ¬ ∃ out, modelScorerScore "model.json"
      (.xgbBooster (fun _ => .error "predict failed")) [1] = .ok out := by
  refine ⟨rfl, ?_⟩
  rintro ⟨out, h⟩
  rw [show modelScorerScore "model.json"
      (.xgbBooster (fun _ => .error "predict failed")) [1]
      = .error "predict failed" from rfl] at h
  exact Except.noConfusion h

/-! ## Hybrid policy (trade_ai/domain/policies/hybrid_policy_v1.py) -/

/-- The try-block of HybridPolicyV1.decide (hybrid_policy_v1.py lines
39-42): map features from the snapshot, then score them.  The feature
mapper is abstract here (FeatureMapperV1 is file/spec-driven); the scorer
is the embedded ModelScorerV1.score.  Any failure of either step is the
caught exception. -/
def hybridTryScore (mapFeatures : SnapshotV3 → Except String (List ℚ))
    (modelPath : String) (m : ScorerModel) (snapshot : SnapshotV3) :
    Except String ℚ := do
  let feats ← mapFeatures snapshot
  let out ← modelScorerScore modelPath m feats
  pure out.score

/-- HybridPolicyV1.decide (hybrid_policy_v1.py lines 35-56): take the rule
policy's decision, replace only the confidence by the clamped model score,
falling back to the rule confidence (1.0 when null) if mapping or scoring
raises. -/
def hybridDecide (ruleDecide : SnapshotV3 → TradeDecision)
    (mapFeatures : SnapshotV3 → Except String (List ℚ))
    (modelPath : String) (m : ScorerModel) (snapshot : SnapshotV3) :
    TradeDecision :=
  let base := ruleDecide snapshot
  let score : ℚ :=
    match hybridTryScore mapFeatures modelPath m snapshot with
    | .ok s => s
    | .error _ => base.confidence.getD 1
  { action_type := base.action_type
    direction := base.direction
    entry_price := base.entry_price
    sl_price := base.sl_price
    tp_price := base.tp_price
    rr := base.rr
    risk_unit := base.risk_unit
    confidence := some (max 0 (min 1 score))
    decision_time_utc := base.decision_time_utc }

/-! ### Claim C10: the hybrid policy only replaces confidence -/

/-- C10 (confirmed).  For every rule policy, feature mapper, scorer state
and snapshot, HybridPolicyV1.decide returns a decision whose action_type,
direction, entry_price, sl_price, tp_price, rr, risk_unit and
decision_time_utc are exactly those of the wrapped rule policy's decision
on the same snapshot; only confidence is replaced and it is always clamped
into [0,1]; when feature mapping or scoring raises, the clamped fallback
is the rule decision's confidence (1.0 when that is null), and on success
it is the clamped model score. -/
theorem hybridDecide_frame (ruleDecide : SnapshotV3 → TradeDecision)
    (mapFeatures : SnapshotV3 → Except String (List ℚ))
    (modelPath : String) (m : ScorerModel) (snapshot : SnapshotV3) :
    (hybridDecide ruleDecide mapFeatures modelPath m snapshot).action_type
      = (ruleDecide snapshot).action_type ∧
    (hybridDecide ruleDecide mapFeatures modelPath m snapshot).direction
      = (ruleDecide snapshot).direction ∧
    (hybridDecide ruleDecide mapFeatures modelPath m snapshot).entry_price
      = (ruleDecide snapshot).entry_price ∧
    (hybridDecide ruleDecide mapFeatures modelPath m snapshot).sl_price
      = (ruleDecide snapshot).sl_price ∧
    (hybridDecide ruleDecide mapFeatures modelPath m snapshot).tp_price
      = (ruleDecide snapshot).tp_price ∧
    (hybridDecide ruleDecide mapFeatures modelPath m snapshot).rr
      = (ruleDecide snapshot).rr ∧
    (hybridDecide ruleDecide mapFeatures modelPath m snapshot).risk_unit
      = (ruleDecide snapshot).risk_unit ∧
    (hybridDecide ruleDecide mapFeatures modelPath m snapshot).decision_time_utc
      = (ruleDecide snapshot).decision_time_utc ∧
    (∃ c, (hybridDecide ruleDecide mapFeatures modelPath m snapshot).confidence
      = some c ∧ 0 ≤ c ∧ c ≤ 1) ∧
    (∀ e, hybridTryScore mapFeatures modelPath m snapshot = .error e →
      (hybridDecide ruleDecide mapFeatures modelPath m snapshot).confidence
        = some (max 0 (min 1 ((ruleDecide snapshot).confidence.getD 1)))) ∧
    (∀ s, hybridTryScore mapFeatures modelPath m snapshot = .ok s →
      (hybridDecide ruleDecide mapFeatures modelPath m snapshot).confidence
        = some (max 0 (min 1 s))) := by
  refine ⟨rfl, rfl, rfl, rfl, rfl, rfl, rfl, rfl, ?_, ?_, ?_⟩
  · refine ⟨max 0 (min 1 (match hybridTryScore mapFeatures modelPath m snapshot with
      | .ok s => s
      | .error _ => (ruleDecide snapshot).confidence.getD 1)), rfl, ?_, ?_⟩
    · exact le_max_left 0 _
    · exact max_le (by norm_num) (min_le_left 1 _)
  · intro e he
    simp only [hybridDecide, he]
  · intro s hs
    simp only [hybridDecide, hs]

/-- Witness for C10: concrete rule decision, failing mapper; the hybrid
decision keeps all fields and falls back to the clamped rule confidence. -/
theorem hybridDecide_frame_witness :
    (hybridDecide
      (fun _ =>
        { action_type := 1, direction := "LONG", entry_price := 100,
          sl_price := 99, tp_price := 102, rr := 2, risk_unit := 1,
          confidence := some (3/4), decision_time_utc := 7 })
      (fun _ => .error "no feature spec") "" .noModel
      { schema_version := "v3", snapshot_id := "abc", snapshot_time_utc := 0,
        symbol := "BTCUSDT", observer_time_utc := 0, ltf := [],
        htf := .dict [], context := .dict [] }).confidence
      = some (max 0 (min 1 ((3:ℚ)/4))) :=
  (hybridDecide_frame
    (fun _ =>
      { action_type := 1, direction := "LONG", entry_price := 100,
        sl_price := 99, tp_price := 102, rr := 2, risk_unit := 1,
        confidence := some (3/4), decision_time_utc := 7 })
    (fun _ => .error "no feature spec") "" .noModel
    { schema_version := "v3", snapshot_id := "abc", snapshot_time_utc := 0,
      symbol := "BTCUSDT", observer_time_utc := 0, ltf := [],
      htf := .dict [], context := .dict [] }).2.2.2.2.2.2.2.2.2.1
    "no feature spec" rfl

/-! ## Universe selector v3 correlation-aware selection
(trade_ai/infrastructure/market/universe_selector_v3.py lines 403-485)

Only the fields that drive selection are carried per scored row; the
remaining metric fields of the row dicts do not influence which rows are
selected.  The exchange return series (_get_rets, whose cache is
behaviourally the identity for a fixed exchange response) and the Pearson
correlation _corr (which goes through math.sqrt) are abstracted as
function parameters; the selection-size bound holds for every such
function. -/

/-- One scored candidate row (universe_selector_v3.py lines 386-401). -/
structure ScoredRow where
  symbol : String
  score : ℚ
deriving DecidableEq, Repr

/-- Stable descending insertion by score: Python's stable
`scored.sort(key=score, reverse=True)` (universe_selector_v3.py line 403)
produces exactly this list. -/
def insertByScoreDesc (x : ScoredRow) : List ScoredRow → List ScoredRow
  | [] => [x]
  | y :: ys => if y.score ≤ x.score then x :: y :: ys else y :: insertByScoreDesc x ys

/-- Stable descending sort by score. -/
def sortByScoreDesc : List ScoredRow → List ScoredRow
  | [] => []
  | x :: xs => insertByScoreDesc x (sortByScoreDesc xs)

/-- universe_selector_v3.py lines 422-425: previously selected symbols
still present among the scored rows, limited to max(0, sticky_keep). -/
def stickyPool (stickyEnabled : Bool) (stickyKeep : ℤ) (prev : List String)
    (scored : List ScoredRow) : List String :=
  if stickyEnabled ∧ prev ≠ [] then
    (prev.filter (fun s => scored.any (fun r => r.symbol = s))).take
      (max 0 stickyKeep).toNat
  else []

/-- universe_selector_v3.py lines 427-430: the sticky rows prepended to the
selection (first scored row per sticky symbol). -/
def stickySelected (stickyEnabled : Bool) (stickyKeep : ℤ) (prev : List String)
    (scored : List ScoredRow) : List ScoredRow :=
  (stickyPool stickyEnabled stickyKeep prev scored).filterMap
    (fun s => scored.find? (fun r => r.symbol = s))

/-- universe_selector_v3.py lines 446-458: a candidate is rejected when it
correlates beyond max_corr with some already-selected row (rows with empty
symbols, missing returns or undefined correlation are skipped). -/
def corrReject (maxCorr : ℚ) (getRets : String → Option (List ℚ))
    (corr : List ℚ → List ℚ → Option ℚ) (rets : List ℚ)
    (selected : List ScoredRow) : Bool :=
  selected.any (fun s2 =>
    decide (s2.symbol ≠ "") &&
    (match getRets s2.symbol with
     | none => false
     | some rets2 =>
       match corr rets rets2 with
       | none => false
       | some c => decide (maxCorr < |c|)))

/-- universe_selector_v3.py lines 432-463: the greedy selection loop with
its break at target_symbols, dedup by symbol, returns-availability check
and correlation filter. -/
def greedySelect (target : ℤ) (maxCorr : ℚ)
    (getRets : String → Option (List ℚ))
    (corr : List ℚ → List ℚ → Option ℚ) :
    List ScoredRow → List ScoredRow → List ScoredRow
  | [], selected => selected
  | row :: rest, selected =>
    if target ≤ (selected.length : ℤ) then selected
    else if selected.any (fun x => x.symbol = row.symbol) then
      greedySelect target maxCorr getRets corr rest selected
    else
      match getRets row.symbol with
      | none => greedySelect target maxCorr getRets corr rest selected
      | some rets =>
        if corrReject maxCorr getRets corr rets selected then
          greedySelect target maxCorr getRets corr rest selected
        else
          greedySelect target maxCorr getRets corr rest (selected ++ [row])

/-- The selection phase of UniverseSelectorV3.select (lines 403-485): sort
scored rows by descending score, seed the selection with the sticky rows,
run the greedy loop.  The report's "selected" field is the per-key
compaction of this list and has the same length. -/
def selectPhase (target : ℤ) (stickyEnabled : Bool) (stickyKeep : ℤ)
    (maxCorr : ℚ) (getRets : String → Option (List ℚ))
    (corr : List ℚ → List ℚ → Option ℚ)
    (prev : List String) (scored : List ScoredRow) : List ScoredRow :=
  greedySelect target maxCorr getRets corr (sortByScoreDesc scored)
    (stickySelected stickyEnabled stickyKeep prev (sortByScoreDesc scored))

theorem greedySelect_length_le (target : ℤ) (maxCorr : ℚ)
    (getRets : String → Option (List ℚ))
    (corr : List ℚ → List ℚ → Option ℚ) :
    ∀ (rows selected : List ScoredRow),
    ((greedySelect target maxCorr getRets corr rows selected).length : ℤ)
      ≤ max target (selected.length : ℤ) := by
  intro rows
  induction rows with
  | nil =>
    intro selected
    rw [greedySelect]
    exact le_max_right _ _
  | cons row rest ih =>
    intro selected
    rw [greedySelect]
    split
    · exact le_max_right _ _
    rename_i hlt
    push_neg at hlt
    split
    · exact ih selected
    split
    · exact ih selected
    · split
      · exact ih selected
      · refine le_trans (ih (selected ++ [row])) ?_
        have hlen : ((selected ++ [row]).length : ℤ) ≤ target := by
          rw [List.length_append, List.length_singleton]
          push_cast
          omega
        rw [max_eq_left hlen]
        exact le_max_left _ _

/-! ### Claim C9: size of the selected universe -/

/-- C9 (amended).  For every selector run (any previously-selected list,
any sticky_keep, any scored candidate set, any returns/correlation data),
the selected list built by UniverseSelectorV3.select has at most
max(target_symbols, max(0, sticky_keep)) rows: the greedy loop stops at
target_symbols, but the sticky-keep rows are prepended without counting
against the target, so the bound degrades to sticky_keep when
sticky_keep > target_symbols (see universeSelect_claim_counterexample).
With the defaults (sticky_keep=2 <= target_symbols=8) the original
|selected| <= target_symbols bound holds. -/
theorem universeSelect_selected_bound (target : ℤ) (stickyEnabled : Bool)
    (stickyKeep : ℤ) (maxCorr : ℚ) (getRets : String → Option (List ℚ))
    (corr : List ℚ → List ℚ → Option ℚ) (prev : List String)
    (scored : List ScoredRow) :
    ((selectPhase target stickyEnabled stickyKeep maxCorr getRets corr
        prev scored).length : ℤ)
      ≤ max target (max 0 stickyKeep) := by
  refine le_trans (greedySelect_length_le target maxCorr getRets corr
    (sortByScoreDesc scored)
    (stickySelected stickyEnabled stickyKeep prev (sortByScoreDesc scored))) ?_
  have hsticky : ((stickySelected stickyEnabled stickyKeep prev
      (sortByScoreDesc scored)).length : ℤ) ≤ max 0 stickyKeep := by
    unfold stickySelected stickyPool
    split
    · refine le_trans (Int.ofNat_le.mpr (List.length_filterMap_le _ _)) ?_
      refine le_trans (Int.ofNat_le.mpr (List.length_take_le _ _)) ?_
      rw [Int.toNat_of_nonneg (le_max_left 0 stickyKeep)]
    · simp
  exact max_le_max (le_refl target) hsticky

/-- C9 counterexample.  With target_symbols=1, sticky_keep=2 and two
previously-selected symbols that are still scored, the sticky loop
prepends both rows before the greedy loop checks the target, so the
selection has 2 > 1 = target_symbols rows. -/
theorem universeSelect_claim_counterexample :
    (selectPhase 1 true 2 (17/20) (fun _ => none) (fun _ _ => none)
      ["A", "B"] [⟨"A", 1⟩, ⟨"B", 0⟩]).length = 2 ∧
    ¬ ((2 : ℤ) ≤ 1) := by
  with_unfolding_all decide

/-! ## Snapshot id (trade_ai/infrastructure/market/snapshot_builder_v1.py
lines 143-149)

SnapshotBuilderV1.build derives the snapshot id as
`hashlib.sha1(f"{ex_id}|{symbol}|{ltf_tf}|{ltf_close_time_utc}|v3".encode("utf-8")).hexdigest()`.
SHA-1 is implemented below over byte lists with Nat arithmetic modulo
2^32; the key string is ASCII, where UTF-8 bytes coincide with the
character code points. -/


/-- 32-bit rotate left (x < 2^32). -/
def rotl32 (x b : Nat) : Nat :=
  ((x <<< b) % 4294967296) ||| (x >>> (32 - b))

/-- Big-endian bytes to 32-bit words. -/
def toWordsBE : List Nat → List Nat
  | a :: b :: c :: d :: rest => (a * 16777216 + b * 65536 + c * 256 + d) :: toWordsBE rest
  | _ => []

/-- 64-bit big-endian length field. -/
def bytesBE8 (n : Nat) : List Nat :=
  [n / 72057594037927936 % 256, n / 281474976710656 % 256,
   n / 1099511627776 % 256, n / 4294967296 % 256, n / 16777216 % 256,
   n / 65536 % 256, n / 256 % 256, n % 256]

/-- SHA-1 padding: 0x80, zeros to 56 mod 64, 64-bit bit length. -/
def sha1PadBytes (msg : List Nat) : List Nat :=
  msg ++ 128 :: List.replicate ((120 - ((msg.length + 1) % 64)) % 64) 0
    ++ bytesBE8 (msg.length * 8)

/-- SHA-1 message schedule: expand 16 words to 80. -/
def sha1Schedule (ws : List Nat) : Array Nat :=
  (List.range 64).foldl
    (fun arr j =>
      let i := j + 16
      arr.push (rotl32 ((arr.getD (i-3) 0) ^^^ (arr.getD (i-8) 0) ^^^
        (arr.getD (i-14) 0) ^^^ (arr.getD (i-16) 0)) 1))
    ws.toArray

/-- SHA-1 round function by round index. -/
def sha1F (i b c d : Nat) : Nat :=
  if i < 20 then (b &&& c) ||| ((b ^^^ 4294967295) &&& d)
  else if i < 40 then b ^^^ c ^^^ d
  else if i < 60 then (b &&& c) ||| (b &&& d) ||| (c &&& d)
  else b ^^^ c ^^^ d

/-- SHA-1 round constants. -/
def sha1K (i : Nat) : Nat :=
  if i < 20 then 1518500249
  else if i < 40 then 1859775393
  else if i < 60 then 2400959708
  else 3395469782

/-- One SHA-1 block compression. -/
def sha1Compress (h : Nat × Nat × Nat × Nat × Nat) (block : List Nat) :
    Nat × Nat × Nat × Nat × Nat :=
  let w := sha1Schedule (toWordsBE block)
  let fin := (List.range 80).foldl
    (fun (st : Nat × Nat × Nat × Nat × Nat) i =>
      let temp := (rotl32 st.1 5 + sha1F i st.2.1 st.2.2.1 st.2.2.2.1
        + st.2.2.2.2 + sha1K i + w.getD i 0) % 4294967296
      (temp, st.1, rotl32 st.2.1 30, st.2.2.1, st.2.2.2.1))
    h
  ((h.1 + fin.1) % 4294967296, (h.2.1 + fin.2.1) % 4294967296,
   (h.2.2.1 + fin.2.2.1) % 4294967296, (h.2.2.2.1 + fin.2.2.2.1) % 4294967296,
   (h.2.2.2.2 + fin.2.2.2.2) % 4294967296)

/-- Process the padded message 64 bytes at a time (fuel-driven structural
recursion; the fuel is instantiated with the padded length, an upper bound
on the block count). -/
def sha1Blocks : Nat → (Nat × Nat × Nat × Nat × Nat) → List Nat →
    Nat × Nat × Nat × Nat × Nat
  | 0, st, _ => st
  | _ + 1, st, [] => st
  | fuel + 1, st, l => sha1Blocks fuel (sha1Compress st (l.take 64)) (l.drop 64)

/-- SHA-1 digest of a byte list as five 32-bit words. -/
def sha1Digest (msg : List Nat) : Nat × Nat × Nat × Nat × Nat :=
  sha1Blocks (sha1PadBytes msg).length
    (1732584193, 4023233417, 2562383102, 271733878, 3285377520)
    (sha1PadBytes msg)

/-- Lowercase hex digit. -/
def hexNibble (n : Nat) : Char :=
  if n < 10 then Char.ofNat (48 + n) else Char.ofNat (87 + n)

/-- Eight lowercase hex digits of a 32-bit word. -/
def word8Hex (w : Nat) : List Char :=
  (List.range 8).map (fun i => hexNibble (w / 16 ^ (7 - i) % 16))

/-- hashlib.sha1(...).hexdigest(): the full 40-hex-character digest. -/
def sha1Hex (msg : List Nat) : String :=
  String.mk (word8Hex (sha1Digest msg).1 ++ word8Hex (sha1Digest msg).2.1 ++
    word8Hex (sha1Digest msg).2.2.1 ++ word8Hex (sha1Digest msg).2.2.2.1 ++
    word8Hex (sha1Digest msg).2.2.2.2)

/-- UTF-8 bytes of an ASCII string (code points). -/
def asciiBytes (s : String) : List Nat := s.data.map Char.toNat

/-- snapshot_builder_v1.py line 148: the snapshot key string. -/
def snapKey (ex symbol tf : String) (ltfClose : Nat) : String :=
  ex ++ "|" ++ symbol ++ "|" ++ tf ++ "|" ++ toString ltfClose ++ "|v3"

/-- snapshot_builder_v1.py line 149: the snapshot id is the full sha1
hexdigest of the key. -/
def snapshotIdOf (ex symbol tf : String) (ltfClose : Nat) : String :=
  sha1Hex (asciiBytes (snapKey ex symbol tf ltfClose))


/-! ### Claim C2: deterministic snapshot id -/

set_option maxRecDepth 200000 in
/-- C2 (amended).  For every snapshot built from non-empty LTF OHLCV, the
snapshot id is a pure deterministic function of (exchange, symbol, ltf
timeframe, ltf close time, "v3"): the *full* 40-hex-character sha1
hexdigest of "ex|symbol|tf|close|v3".  In particular for
(exchange="binance", symbol="BTCUSDT", tf="5m", ltf_close=1700000100) the
id is sha1("binance|BTCUSDT|5m|1700000100|v3") =
"0b88e89760b7f3b015e15a0f412649351820db58", identical across processes
(the id is a function of the key alone).  The original claim's
20-character truncation does not exist in the builder (truncation to 20
hex chars is applied only to *decision* ids elsewhere in the repo); see
snapshotId_claim_counterexample. -/
theorem snapshotId_full_sha1 :
    (∀ ex symbol tf t, snapshotIdOf ex symbol tf t
      = sha1Hex (asciiBytes (snapKey ex symbol tf t))) ∧
    snapshotIdOf "binance" "BTCUSDT" "5m" 1700000100
      = "0b88e89760b7f3b015e15a0f412649351820db58" ∧
    (snapshotIdOf "binance" "BTCUSDT" "5m" 1700000100).length = 40 := by
  have h : snapshotIdOf "binance" "BTCUSDT" "5m" 1700000100
      = "0b88e89760b7f3b015e15a0f412649351820db58" := by
    with_unfolding_all decide
  refine ⟨fun ex symbol tf t => rfl, h, ?_⟩
  rw [h]
  rfl

set_option maxRecDepth 200000 in
/-- C2 counterexample.  The id built for the claim's concrete bar has 40
hex characters, not 20, and differs from the first 20 characters of the
sha1 digest. -/
theorem snapshotId_claim_counterexample :
    (snapshotIdOf "binance" "BTCUSDT" "5m" 1700000100).length ≠ 20 ∧
    snapshotIdOf "binance" "BTCUSDT" "5m" 1700000100
      ≠ (sha1Hex (asciiBytes (snapKey "binance" "BTCUSDT" "5m" 1700000100))).take 20 := by
  have h : snapshotIdOf "binance" "BTCUSDT" "5m" 1700000100
      = "0b88e89760b7f3b015e15a0f412649351820db58" := by
    with_unfolding_all decide
  have h2 : sha1Hex (asciiBytes (snapKey "binance" "BTCUSDT" "5m" 1700000100))
      = "0b88e89760b7f3b015e15a0f412649351820db58" := h
  rw [h, h2]
  refine ⟨by decide, by decide⟩
